import Mathlib

/-
  Verification of the Farmily-Cloud ownership-transfer protocol.

  On-chain part: a shallow embedding of the `ProductManagement` Solidity
  contract (src/unnamed/part_005).  Addresses and 32-byte identifiers are
  modelled as `Nat` (0 is the null address / zero id), identifier strings as
  `String`, and Solidity mappings as total functions returning the zero-value
  default.  Each public state-mutating function is a Lean function
  `ContractState → args → Except XferError ContractState`; a returned
  `.error` models either a revert or (for `initiateTransfer`, which signals
  failures via a `TransferError` event and an early `return` instead of a
  revert) the emitted error reason — in both cases storage is unchanged.
  `keccak256(abi.encodePacked(str))` comparisons of single strings are
  modelled as string equality (the hash of the packed encoding of a string
  coincides iff the bytes coincide, collisions aside).  The ReentrancyGuard
  `_status` flag is modelled as a `locked : Bool` component of the state:
  functions carrying the `nonReentrant` modifier reject when `locked = true`.

  Off-chain part: a shallow embedding of the mirror record store (Mongoose
  models Product / Transfer / Transaction) and of the two reconciliation
  route handlers the claims name: POST /api/distributor/acceptTransfer
  (farmily-backend/routes/distributorDashboard.js) and
  POST /api/farmer/initiateTransfer, POST /api/farmer/cancelTransfer
  (farmily-backend/routes/farmerDashboard.js), plus
  `checkTransferStatus` (farmily-backend/services/Web3Service.js) and the
  Product model method `completeTransfer` (farmily-backend/models/Product.js).
  External effects (the ledger receipt read by `checkTransferStatus`, the
  outcome of the ledger submission, clock readings, freshly generated Mongo
  document ids) enter as explicit parameters.  JS numeric quantities are
  modelled as `Int`.
-/

set_option linter.unusedVariables false
set_option linter.unnecessarySeqFocus false

namespace Farmily

/-- Product status enum, in the contract's declaration order. -/
inductive Status where
  | registered
  | planted
  | growing
  | harvested
  | processed
  | packaged
  | inTransit
  | delivered
deriving DecidableEq, Repr

/-- On-chain `Product` struct. -/
structure Product where
  batchNumber : String
  productType : String
  origin : String
  productionDate : Nat
  quantity : Nat
  currentOwner : Nat
  status : Status
  price : Nat
deriving DecidableEq, Repr

/-- Zero-value default returned by the `products` mapping for absent keys. -/
def defaultProduct : Product :=
  ⟨"", "", "", 0, 0, 0, Status.registered, 0⟩

/-- On-chain `PendingTransfer` struct. -/
structure PendingTransfer where
  fromAddr : Nat
  toAddr : Nat
  quantity : Nat
deriving DecidableEq, Repr

/-- Error / revert reasons of the contract's state-mutating entry points.
`reentrant` models the ReentrancyGuard revert. -/
inductive XferError where
  | invalidArgument
  | alreadyRegisteredIdentifier
  | alreadyRegisteredAddress
  | productNotFound
  | notOwner
  | invalidQuantity
  | recipientUnregistered
  | selfTransfer
  | transferAlreadyPending
  | noPendingTransfer
  | notRecipient
  | staleTransfer
  | quantityExceedsAvailable
  | notInitiator
  | reentrant
deriving DecidableEq, Repr

/-- Pointwise update of a total map (Solidity storage write). -/
def updFn {α β : Type} [DecidableEq α] (f : α → β) (k : α) (v : β) : α → β :=
  fun x => if x = k then v else f x

/-- Full storage of the `ProductManagement` contract, plus the
ReentrancyGuard flag. -/
structure ContractState where
  products : Nat → Product
  pendingTransfers : Nat → PendingTransfer
  identifierToAddress : String → Nat
  addressToIdentifier : Nat → String
  productIdCounter : Nat
  locked : Bool

/-- Contract state at deployment: empty mappings, counter 0, guard free. -/
def initialState : ContractState :=
  ⟨fun _ => defaultProduct, fun _ => ⟨0, 0, 0⟩, fun _ => 0, fun _ => "", 0, false⟩

/-- `createProduct` (part_005 lines 115-148).  `blockTimestamp` stands for
`block.timestamp`. -/
def createProduct (s : ContractState) (sender blockTimestamp : Nat)
    (batchNumber productType origin : String)
    (productionDate quantity price : Nat) : Except XferError ContractState :=
  if batchNumber = "" then .error .invalidArgument
  else if productType = "" then .error .invalidArgument
  else if origin = "" then .error .invalidArgument
  else if ¬ (0 < productionDate ∧ productionDate ≤ blockTimestamp) then
    .error .invalidArgument
  else if ¬ 0 < quantity then .error .invalidArgument
  else if ¬ 0 < price then .error .invalidArgument
  else
    let counter := s.productIdCounter + 1
    .ok { s with
      productIdCounter := counter,
      products := updFn s.products counter
        ⟨batchNumber, productType, origin, productionDate, quantity, sender,
         Status.registered, price⟩ }

/-- `registerUser` (part_005 lines 157-171). -/
def registerUser (s : ContractState) (sender : Nat) (identifier : String) :
    Except XferError ContractState :=
  if s.identifierToAddress identifier ≠ 0 then
    .error .alreadyRegisteredIdentifier
  else if s.addressToIdentifier sender ≠ "" then
    .error .alreadyRegisteredAddress
  else
    .ok { s with
      identifierToAddress := updFn s.identifierToAddress identifier sender,
      addressToIdentifier := updFn s.addressToIdentifier sender identifier }

/-- `updateProductStatus` (part_005 lines 178-193). -/
def updateProductStatus (s : ContractState) (sender pid : Nat)
    (newStatus : Status) : Except XferError ContractState :=
  if (s.products pid).currentOwner = 0 then .error .productNotFound
  else if (s.products pid).currentOwner ≠ sender then .error .notOwner
  else
    .ok { s with
      products := updFn s.products pid { s.products pid with status := newStatus } }

/-- `productExists` view (part_005 lines 261-263). -/
def productExists (s : ContractState) (pid : Nat) : Bool :=
  (s.products pid).currentOwner != 0

/-- `initiateTransfer` (part_005 lines 204-254), `nonReentrant`.  The
function does not revert on a failed check: it emits `TransferError` and
returns; the `.error` value records the emitted reason, storage unchanged
either way. -/
def initiateTransfer (s : ContractState) (sender pid : Nat)
    (toIdentifier : String) (quantity : Nat) : Except XferError ContractState :=
  if s.locked then .error .reentrant
  else if productExists s pid = false then .error .productNotFound
  else if (s.products pid).currentOwner ≠ sender then .error .notOwner
  else if quantity = 0 ∨ quantity > (s.products pid).quantity then
    .error .invalidQuantity
  else
    let toAddress := s.identifierToAddress toIdentifier
    if toAddress = 0 then .error .recipientUnregistered
    else if toAddress = sender then .error .selfTransfer
    else if (s.pendingTransfers pid).quantity ≠ 0 then
      .error .transferAlreadyPending
    else
      .ok { s with
        pendingTransfers := updFn s.pendingTransfers pid
          ⟨sender, toAddress, quantity⟩ }

/-- `acceptTransfer` (part_005 lines 309-364), `nonReentrant`.
`newProductId` stands for the value of
`keccak256(abi.encodePacked(_transferId, block.timestamp, msg.sender))`
computed on the partial branch. -/
def acceptTransfer (s : ContractState) (sender transferId newProductId : Nat) :
    Except XferError ContractState :=
  if s.locked then .error .reentrant
  else
    let transfer := s.pendingTransfers transferId
    if ¬ 0 < transfer.quantity then .error .noPendingTransfer
    else if transfer.toAddr ≠ sender then .error .notRecipient
    else
      let product := s.products transferId
      if product.currentOwner = 0 then .error .productNotFound
      else if product.currentOwner ≠ transfer.fromAddr then .error .staleTransfer
      else if ¬ transfer.quantity ≤ product.quantity then
        .error .quantityExceedsAvailable
      else if transfer.quantity = product.quantity then
        .ok { s with
          products := updFn s.products transferId
            { product with currentOwner := sender },
          pendingTransfers := updFn s.pendingTransfers transferId ⟨0, 0, 0⟩ }
      else
        -- partial transfer: write the fragment first, then reduce the
        -- original through the storage reference, as the contract does
        let s1 : ContractState := { s with
          products := updFn s.products newProductId
            ⟨product.batchNumber, product.productType, product.origin,
             product.productionDate, transfer.quantity, sender,
             product.status, product.price⟩ }
        let p1 := s1.products transferId
        .ok { s1 with
          products := updFn s1.products transferId
            { p1 with quantity := p1.quantity - transfer.quantity },
          pendingTransfers := updFn s1.pendingTransfers transferId ⟨0, 0, 0⟩ }

/-- `cancelTransfer` (part_005 lines 392-406).  NOTE: the source carries no
`nonReentrant` modifier here, so the guard flag is not consulted.  The two
`keccak256(abi.encodePacked(...))` comparisons of identifier strings are
modelled as string equality. -/
def cancelTransfer (s : ContractState) (sender pid : Nat) :
    Except XferError ContractState :=
  let transfer := s.pendingTransfers pid
  let senderIdentifier := s.addressToIdentifier sender
  let initiatorIdentifier := s.addressToIdentifier transfer.fromAddr
  if senderIdentifier ≠ initiatorIdentifier then .error .notInitiator
  else if ¬ 0 < transfer.quantity then .error .noPendingTransfer
  else .ok { s with pendingTransfers := updFn s.pendingTransfers pid ⟨0, 0, 0⟩ }

/-- `updateProductOwnerAddress` (part_005 lines 412-427). -/
def updateProductOwnerAddress (s : ContractState) (sender pid : Nat) :
    Except XferError ContractState :=
  if (s.products pid).currentOwner = 0 then .error .productNotFound
  else
    let ownerIdentifier := s.addressToIdentifier (s.products pid).currentOwner
    if s.addressToIdentifier sender ≠ ownerIdentifier then .error .notOwner
    else
      .ok { s with
        products := updFn s.products pid
          { s.products pid with currentOwner := sender } }

/-- One external call to a state-mutating entry point of the contract.
Read-only functions and `updateProductInfo` / `triggerPayment` (which do not
touch products, pending transfers or the registry) are omitted. -/
inductive Msg where
  | create (sender blockTimestamp : Nat) (batchNumber productType origin : String)
      (productionDate quantity price : Nat)
  | register (sender : Nat) (identifier : String)
  | setStatus (sender pid : Nat) (newStatus : Status)
  | initiate (sender pid : Nat) (toIdentifier : String) (quantity : Nat)
  | accept (sender transferId newProductId : Nat)
  | cancel (sender pid : Nat)
  | updateOwnerAddr (sender pid : Nat)

/-- The `msg.sender` of a call. -/
def Msg.sender : Msg → Nat
  | .create a _ _ _ _ _ _ _ => a
  | .register a _ => a
  | .setStatus a _ _ => a
  | .initiate a _ _ _ => a
  | .accept a _ _ => a
  | .cancel a _ => a
  | .updateOwnerAddr a _ => a

/-- Dispatch a call to the corresponding contract function. -/
def exec (s : ContractState) : Msg → Except XferError ContractState
  | .create a ts b t o d q pr => createProduct s a ts b t o d q pr
  | .register a i => registerUser s a i
  | .setStatus a p st => updateProductStatus s a p st
  | .initiate a p i q => initiateTransfer s a p i q
  | .accept a t n => acceptTransfer s a t n
  | .cancel a p => cancelTransfer s a p
  | .updateOwnerAddr a p => updateProductOwnerAddress s a p

/-- Transaction semantics: a reverted / rejected call leaves storage
unchanged and reports the reason. -/
def execCall (s : ContractState) (m : Msg) : ContractState × Option XferError :=
  match exec s m with
  | .ok s2 => (s2, none)
  | .error e => (s, some e)

/-- States reachable from deployment by external calls (the EVM guarantees
`msg.sender` is never the null address). -/
inductive Reachable : ContractState → Prop where
  | init : Reachable initialState
  | step (s s2 : ContractState) (m : Msg) : Reachable s → m.sender ≠ 0 →
      exec s m = .ok s2 → Reachable s2

/-- Registry invariant: the null address holds no identifier, and each
registered side points back to the other.  The first pointer clause is
restricted to non-empty identifiers, since the contract uses the empty
string as its own "unregistered" sentinel in `addressToIdentifier`. -/
def RegInv (s : ContractState) : Prop :=
  s.addressToIdentifier 0 = "" ∧
  (∀ id : String, id ≠ "" → s.identifierToAddress id ≠ 0 →
    s.addressToIdentifier (s.identifierToAddress id) = id) ∧
  (∀ a : Nat, s.addressToIdentifier a ≠ "" →
    s.identifierToAddress (s.addressToIdentifier a) = a)

/- ----------------------------------------------------------------- -/
/- Off-chain mirror model.                                            -/
/- ----------------------------------------------------------------- -/

/-- Mirror Transfer lifecycle status (Transfer schema enum, plus the
`failed` value that routes assign). -/
inductive TStatus where
  | pending
  | accepted
  | completed
  | cancelled
  | failed
deriving DecidableEq, Repr

/-- Mirror `Transfer` document (farmily-backend/models/Transaction.js,
transferSchema); only the fields the modelled routes touch. -/
structure MTransfer where
  product : Nat
  fromUser : Nat
  toUser : Nat
  quantity : Int
  status : TStatus
  blockchainTx : String
  acceptedAt : Option Nat
  completedAt : Option Nat
deriving DecidableEq, Repr

/-- One entry of a mirror product's ownership history. -/
structure OwnEntry where
  owner : Nat
  timestamp : Nat
deriving DecidableEq, Repr

/-- Mirror `Product` document (farmily-backend/models/Product.js); only the
fields the modelled routes and methods touch. -/
structure MProduct where
  currentOwner : Nat
  quantity : Int
  previousOwner : Option Nat
  pendingTransfer : Option (Nat × Int × Nat)
  ownershipHistory : List OwnEntry
  transferHistory : List Nat
deriving DecidableEq, Repr

/-- Mirror `Transaction` document created by the distributor accept route. -/
structure MTxn where
  product : Nat
  fromUser : Nat
  toUser : Nat
  quantity : Int
  transactionType : String
  status : String
  blockchainTxHash : String
deriving DecidableEq, Repr

/-- The mirror record store: Transfer and Product documents by Mongo id,
users by username, and the Transaction collection. -/
structure MirrorState where
  transfers : Nat → Option MTransfer
  products : Nat → Option MProduct
  users : String → Option Nat
  transactions : List MTxn

/-- Store a Transfer document. -/
def setTransfer (s : MirrorState) (tid : Nat) (t : MTransfer) : MirrorState :=
  { s with transfers := updFn s.transfers tid (some t) }

/-- Store a Product document. -/
def setProduct (s : MirrorState) (pid : Nat) (p : MProduct) : MirrorState :=
  { s with products := updFn s.products pid (some p) }

/-- Transfer schema pre-save hook (models/Transaction.js lines 114-123):
when the status path was modified by the pending save, stamp
`acceptedAt` / `completedAt` once. -/
def transferPreSave (t : MTransfer) (modifiedStatus : Bool) (now : Nat) :
    MTransfer :=
  if modifiedStatus then
    if t.status = TStatus.accepted ∧ t.acceptedAt = none then
      { t with acceptedAt := some now }
    else if t.status = TStatus.completed ∧ t.completedAt = none then
      { t with completedAt := some now }
    else t
  else t

/-- Product model method `completeTransfer`
(farmily-backend/models/Product.js lines 238-257).  `now` models
`new Date()`. -/
def completeTransfer (p : MProduct) (now : Nat) : Except String MProduct :=
  match p.pendingTransfer with
  | some pt =>
    .ok { p with
      previousOwner := some p.currentOwner,
      currentOwner := pt.1,
      ownershipHistory := p.ownershipHistory ++ [⟨p.currentOwner, now⟩],
      quantity := p.quantity - pt.2.1,
      transferHistory := p.transferHistory ++ [pt.1],
      pendingTransfer := none }
  | none => .error "No pending transfer to complete"

/-- Topics the `checkTransferStatus` receipt scan distinguishes. -/
inductive XferEventTopic where
  | transferInitiated
  | transferAccepted
  | other
deriving DecidableEq, Repr, BEq

/-- Ledger transaction receipt, as seen through web3. -/
structure Receipt where
  status : Bool
  logs : List XferEventTopic
deriving DecidableEq, Repr

/-- Transfer status reported by the ledger query. -/
inductive LedgerTStatus where
  | pending
  | pendingAcceptance
  | completed
  | failed
deriving DecidableEq, Repr

/-- `checkTransferStatus` (farmily-backend/services/Web3Service.js lines
537-562); the receipt lookup for the transfer's transaction hash is the
explicit argument. -/
def checkTransferStatus (receipt : Option Receipt) : LedgerTStatus :=
  match receipt with
  | none => .pending
  | some r =>
    if r.status then
      match r.logs.find? (fun l =>
          l == XferEventTopic.transferInitiated ||
          l == XferEventTopic.transferAccepted) with
      | some ev =>
        if ev == XferEventTopic.transferAccepted then .completed
        else .pendingAcceptance
      | none => .completed
    else .failed

/-- HTTP-level outcome of a route handler. -/
inductive RouteOutcome where
  | ok (message : String)
  | clientError (message : String)
  | serverError (message : String)
deriving DecidableEq, Repr

/-- Outcome of `Web3Service.acceptTransferOnBlockchain`. -/
structure SubmitResult where
  success : Bool
  txHash : String
deriving DecidableEq, Repr

/-- Mirror update performed by the distributor accept route's
already-completed branch (distributorDashboard.js lines 113-131): mark the
Transfer completed and, if the mirror product exists and is not yet owned
by the acceptor, re-point its owner and set its quantity to the transfer
quantity. -/
def completedMirror (s : MirrorState) (userId transferId : Nat)
    (t : MTransfer) (now : Nat) : MirrorState :=
  let t2 := transferPreSave { t with status := TStatus.completed }
    (t.status != TStatus.completed) now
  let s1 := setTransfer s transferId t2
  match s1.products t.product with
  | some p =>
    if p.currentOwner ≠ userId then
      setProduct s1 t.product
        { p with currentOwner := userId, quantity := t.quantity }
    else s1
  | none => s1

/-- POST /api/distributor/acceptTransfer/:transferId
(farmily-backend/routes/distributorDashboard.js lines 86-199).
`receipt` feeds `checkTransferStatus`; `sub` is the result of the ledger
submission, consulted only on the pending path; `now` models the clock.
The returned `Bool` records whether a ledger submission was issued. -/
def distributorAcceptRoute (s : MirrorState) (userId transferId : Nat)
    (receipt : Option Receipt) (sub : SubmitResult) (now : Nat) :
    MirrorState × RouteOutcome × Bool :=
  match s.transfers transferId with
  | none => (s, .clientError "Transfer not found", false)
  | some t =>
    if t.toUser ≠ userId then (s, .clientError "Transfer not found", false)
    else
      let status := checkTransferStatus receipt
      if status = LedgerTStatus.completed then
        (completedMirror s userId transferId t now,
         .ok "Transfer is already completed on the blockchain. Database updated.",
         false)
      else if status = LedgerTStatus.failed then
        let t2 := transferPreSave { t with status := TStatus.failed }
          (t.status != TStatus.failed) now
        (setTransfer s transferId t2,
         .clientError "Transfer failed on the blockchain.", false)
      else if status ≠ LedgerTStatus.pending then
        (s, .clientError "Unexpected transfer status on blockchain", false)
      else if sub.success = false then
        (s, .serverError "Blockchain transfer acceptance failed", true)
      else
        let t2 := transferPreSave { t with status := TStatus.completed }
          (t.status != TStatus.completed) now
        let s1 := setTransfer s transferId t2
        match s1.products t.product with
        | none => (s1, .clientError "Product not found", true)
        | some p =>
          let s2 := setProduct s1 t.product
            { p with currentOwner := userId, quantity := t.quantity }
          let txn : MTxn :=
            ⟨t.product, t.fromUser, userId, t.quantity,
             "Received from Farmer", "Completed", sub.txHash⟩
          ({ s2 with transactions := s2.transactions ++ [txn] },
           .ok "Transfer accepted successfully", true)

/-- POST /api/farmer/initiateTransfer
(farmily-backend/routes/farmerDashboard.js lines 310-384).  The
express-validator checks (positive integer quantity, non-empty transaction
hash) sit in front of the handler; `freshTid` models the Mongo id of the
newly created Transfer document. -/
def farmerInitiateRoute (s : MirrorState) (userId productId : Nat)
    (newOwnerUsername : String) (quantity : Int) (blockchainTx : String)
    (freshTid : Nat) : MirrorState × RouteOutcome :=
  if quantity < 1 ∨ blockchainTx = "" then (s, .clientError "Validation failed")
  else
    match s.products productId with
    | none => (s, .clientError "Product not found")
    | some p =>
      if p.currentOwner ≠ userId then
        (s, .clientError "You are not the current owner of this product.")
      else if p.quantity < quantity then
        (s, .clientError "Insufficient quantity available for transfer")
      else
        match s.users newOwnerUsername with
        | none => (s, .clientError "New owner not found")
        | some newOwner =>
          let s1 := setProduct s productId
            { p with quantity := p.quantity - quantity }
          let t : MTransfer :=
            ⟨productId, userId, newOwner, quantity, TStatus.pending,
             blockchainTx, none, none⟩
          (setTransfer s1 freshTid t, .ok "Transfer initiated successfully")

/-- POST /api/farmer/cancelTransfer/:transferId
(farmily-backend/routes/farmerDashboard.js lines 472-503).  The handler
looks the transfer up filtered by initiator and pending status, marks it
cancelled, and adds the reserved quantity back onto the mirror product. -/
def farmerCancelRoute (s : MirrorState) (userId transferId : Nat) (now : Nat) :
    MirrorState × RouteOutcome :=
  match s.transfers transferId with
  | none => (s, .clientError "Transfer not found or not cancelable")
  | some t =>
    if t.fromUser ≠ userId ∨ t.status ≠ TStatus.pending then
      (s, .clientError "Transfer not found or not cancelable")
    else
      let t2 := transferPreSave { t with status := TStatus.cancelled }
        (t.status != TStatus.cancelled) now
      let s1 := setTransfer s transferId t2
      let s2 :=
        match s1.products t.product with
        | some p => setProduct s1 t.product
            { p with quantity := p.quantity + t.quantity }
        | none => s1
      (s2, .ok "Transfer cancelled successfully")

/- ----------------------------------------------------------------- -/
/- Concrete states used by witnesses and counterexamples.             -/
/- ----------------------------------------------------------------- -/

/-- Three products owned as in a small running system: product 1 (owner 1,
quantity 100) with a pending partial transfer, product 2 (owner 1, quantity
50) with a pending full transfer, product 3 (owner 9) whose pending
transfer was initiated by address 1 that no longer owns it. -/
def cProducts : Nat → Product :=
  updFn (updFn (updFn (fun _ => defaultProduct)
    1 ⟨"b1", "Corn", "FarmA", 5, 100, 1, Status.registered, 2⟩)
    2 ⟨"b2", "Wheat", "FarmA", 5, 50, 1, Status.registered, 3⟩)
    3 ⟨"b3", "Rice", "FarmB", 5, 20, 9, Status.registered, 4⟩

/-- Pending transfers matching `cProducts`. -/
def cPending : Nat → PendingTransfer :=
  updFn (updFn (updFn (fun _ => ⟨0, 0, 0⟩)
    1 ⟨1, 2, 40⟩) 2 ⟨1, 2, 50⟩) 3 ⟨1, 2, 5⟩

/-- Concrete contract state: products and pending transfers as above, the
single registered pair ("d", 2), guard free. -/
def cSt : ContractState :=
  ⟨cProducts, cPending,
   updFn (fun _ => 0) "d" 2,
   updFn (fun _ => "") 2 "d",
   3, false⟩

/-- `cSt` with the reentrancy flag raised (an execution is in progress). -/
def lockedSt : ContractState := { cSt with locked := true }

/-- State after address 1 registers the empty identifier. -/
def regState1 : ContractState :=
  (execCall initialState (Msg.register 1 "")).1

/-- State after address 1 then also registers "x". -/
def regState2 : ContractState :=
  (execCall regState1 (Msg.register 1 "x")).1

/-- State after address 1 registers "alice" (an ordinary registration). -/
def regStateA : ContractState :=
  (execCall initialState (Msg.register 1 "alice")).1

/-- Concrete mirror store: product 5 owned by user 2 with quantity 100
and empty ownership history; transfer 1 moves 40 units of product 5 from
user 2 to user 3 and is pending; user "dist" has id 3. -/
def mSt : MirrorState :=
  ⟨updFn (fun _ => none) 1
     (some ⟨5, 2, 3, 40, TStatus.pending, "0xa", none, none⟩),
   updFn (fun _ => none) 5 (some ⟨2, 100, none, none, [], []⟩),
   updFn (fun _ => none) "dist" (some 3),
   []⟩

/-- Receipt of a successful ledger transaction carrying a TransferAccepted
event: `checkTransferStatus` classifies it as completed. -/
def okReceipt : Option Receipt :=
  some ⟨true, [XferEventTopic.transferAccepted]⟩

/-- Mirror state after the distributor accept route runs its ledger
submission path on `mSt` (transfer 1, user 3, ledger still pending,
submission succeeds with hash "0xd", clock 50). -/
def mStAfter : MirrorState :=
  (distributorAcceptRoute mSt 3 1 none ⟨true, "0xd"⟩ 50).1

/- ----------------------------------------------------------------- -/
/- Helper lemmas.                                                     -/
/- ----------------------------------------------------------------- -/

theorem updFn_eq {α β : Type} [DecidableEq α] (f : α → β) (k : α) (v : β) :
    updFn f k v k = v := by
  simp [updFn]

theorem updFn_ne {α β : Type} [DecidableEq α] (f : α → β) (k x : α) (v : β)
    (h : x ≠ k) : updFn f k v x = f x := by
  simp [updFn, h]

theorem updFn_self {α β : Type} [DecidableEq α] (f : α → β) (k : α) :
    updFn f k (f k) = f := by
  funext x
  unfold updFn
  split
  · next h => rw [h]
  · rfl

/-- C1: a `acceptTransfer` call whose pending quantity is strictly below the
product's current quantity (caller the recorded recipient, initiator still
the owner) creates exactly one new product record carrying the accepted
quantity and the acceptor as owner with batch, type, origin, production
date, status and price copied from the original; the original product loses
exactly the accepted quantity and keeps its owner; the sum of the two
resulting quantities equals the original quantity; the pending transfer is
cleared; nothing else changes. -/
theorem acceptTransfer_partial_split (s : ContractState)
    (sender transferId newProductId : Nat)
    (hlock : s.locked = false)
    (hq : 0 < (s.pendingTransfers transferId).quantity)
    (hto : (s.pendingTransfers transferId).toAddr = sender)
    (hown : (s.products transferId).currentOwner ≠ 0)
    (hfrom : (s.products transferId).currentOwner =
      (s.pendingTransfers transferId).fromAddr)
    (hlt : (s.pendingTransfers transferId).quantity <
      (s.products transferId).quantity)
    (hnew : (s.products newProductId).currentOwner = 0) :
    ∃ s2, acceptTransfer s sender transferId newProductId = .ok s2 ∧
      s2.products newProductId =
        ⟨(s.products transferId).batchNumber,
         (s.products transferId).productType,
         (s.products transferId).origin,
         (s.products transferId).productionDate,
         (s.pendingTransfers transferId).quantity, sender,
         (s.products transferId).status,
         (s.products transferId).price⟩ ∧
      s2.products transferId =
        { s.products transferId with
            quantity := (s.products transferId).quantity -
              (s.pendingTransfers transferId).quantity } ∧
      (s2.products transferId).currentOwner =
        (s.products transferId).currentOwner ∧
      (s2.products transferId).quantity + (s2.products newProductId).quantity =
        (s.products transferId).quantity ∧
      s2.pendingTransfers transferId = ⟨0, 0, 0⟩ ∧
      (∀ q, q ≠ transferId → q ≠ newProductId → s2.products q = s.products q) ∧
      (∀ q, q ≠ transferId → s2.pendingTransfers q = s.pendingTransfers q) ∧
      s2.identifierToAddress = s.identifierToAddress ∧
      s2.addressToIdentifier = s.addressToIdentifier := by
  have hne : newProductId ≠ transferId := by
    intro he
    rw [he] at hnew
    exact hown hnew
  rw [acceptTransfer]
  rw [hlock]
  rw [if_neg (by simp)]
  rw [if_neg (not_not_intro hq)]
  rw [if_neg (not_not_intro hto)]
  rw [if_neg hown]
  rw [if_neg (not_not_intro hfrom)]
  rw [if_neg (not_not_intro (le_of_lt hlt))]
  rw [if_neg (ne_of_lt hlt)]
  refine ⟨_, rfl, ?_, ?_, ?_, ?_, ?_, ?_, ?_, rfl, rfl⟩
  · simp only [updFn_ne _ _ _ _ hne, updFn_eq]
  · simp only [updFn_eq, updFn_ne _ _ _ _ hne.symm]
  · simp only [updFn_eq, updFn_ne _ _ _ _ hne.symm]
  · simp only [updFn_eq, updFn_ne _ _ _ _ hne, updFn_ne _ _ _ _ hne.symm]
    omega
  · simp only [updFn_eq]
  · intro q h1 h2
    simp only [updFn_ne _ _ _ _ h1, updFn_ne _ _ _ _ h2]
  · intro q h1
    simp only [updFn_ne _ _ _ _ h1]

/-- C1 witness: in `cSt` the recipient, address 2, accepts the pending
transfer of 40 units of product 1 (quantity 100); fragment id 7. -/
theorem acceptTransfer_partial_split_witness :
    ∃ s2, acceptTransfer cSt 2 1 7 = .ok s2 ∧
      s2.products 7 =
        ⟨(cSt.products 1).batchNumber, (cSt.products 1).productType,
         (cSt.products 1).origin, (cSt.products 1).productionDate,
         (cSt.pendingTransfers 1).quantity, 2,
         (cSt.products 1).status, (cSt.products 1).price⟩ ∧
      s2.products 1 =
        { cSt.products 1 with
            quantity := (cSt.products 1).quantity -
              (cSt.pendingTransfers 1).quantity } ∧
      (s2.products 1).currentOwner = (cSt.products 1).currentOwner ∧
      (s2.products 1).quantity + (s2.products 7).quantity =
        (cSt.products 1).quantity ∧
      s2.pendingTransfers 1 = ⟨0, 0, 0⟩ ∧
      (∀ q, q ≠ 1 → q ≠ 7 → s2.products q = cSt.products q) ∧
      (∀ q, q ≠ 1 → s2.pendingTransfers q = cSt.pendingTransfers q) ∧
      s2.identifierToAddress = cSt.identifierToAddress ∧
      s2.addressToIdentifier = cSt.addressToIdentifier :=
  acceptTransfer_partial_split cSt 2 1 7 rfl (by decide) (by decide) (by decide)
    (by decide) (by decide) (by decide)

/-- C2: an `acceptTransfer` call whose pending quantity equals the product's
current quantity (caller the recorded recipient, initiator still the owner)
re-points the product's owner to the acceptor, leaves its quantity
unchanged, creates no new product record, and clears the pending
transfer. -/
theorem acceptTransfer_full_ownerSwap (s : ContractState)
    (sender transferId newProductId : Nat)
    (hlock : s.locked = false)
    (hq : 0 < (s.pendingTransfers transferId).quantity)
    (hto : (s.pendingTransfers transferId).toAddr = sender)
    (hown : (s.products transferId).currentOwner ≠ 0)
    (hfrom : (s.products transferId).currentOwner =
      (s.pendingTransfers transferId).fromAddr)
    (heq : (s.pendingTransfers transferId).quantity =
      (s.products transferId).quantity) :
    ∃ s2, acceptTransfer s sender transferId newProductId = .ok s2 ∧
      s2.products transferId =
        { s.products transferId with currentOwner := sender } ∧
      (s2.products transferId).quantity = (s.products transferId).quantity ∧
      (s2.products transferId).currentOwner = sender ∧
      s2.pendingTransfers transferId = ⟨0, 0, 0⟩ ∧
      (∀ q, q ≠ transferId → s2.products q = s.products q) ∧
      (∀ q, q ≠ transferId → s2.pendingTransfers q = s.pendingTransfers q) ∧
      s2.identifierToAddress = s.identifierToAddress ∧
      s2.addressToIdentifier = s.addressToIdentifier ∧
      s2.productIdCounter = s.productIdCounter := by
  rw [acceptTransfer]
  rw [hlock]
  rw [if_neg (by simp)]
  rw [if_neg (not_not_intro hq)]
  rw [if_neg (not_not_intro hto)]
  rw [if_neg hown]
  rw [if_neg (not_not_intro hfrom)]
  rw [if_neg (not_not_intro (le_of_eq heq))]
  rw [if_pos heq]
  refine ⟨_, rfl, ?_, ?_, ?_, ?_, ?_, ?_, rfl, rfl, rfl⟩
  · simp only [updFn_eq]
  · simp only [updFn_eq]
  · simp only [updFn_eq]
  · simp only [updFn_eq]
  · intro q h1
    simp only [updFn_ne _ _ _ _ h1]
  · intro q h1
    simp only [updFn_ne _ _ _ _ h1]

/-- C2 witness: in `cSt` the recipient, address 2, accepts the pending
transfer of all 50 units of product 2. -/
theorem acceptTransfer_full_ownerSwap_witness :
    ∃ s2, acceptTransfer cSt 2 2 9 = .ok s2 ∧
      s2.products 2 = { cSt.products 2 with currentOwner := 2 } ∧
      (s2.products 2).quantity = (cSt.products 2).quantity ∧
      (s2.products 2).currentOwner = 2 ∧
      s2.pendingTransfers 2 = ⟨0, 0, 0⟩ ∧
      (∀ q, q ≠ 2 → s2.products q = cSt.products q) ∧
      (∀ q, q ≠ 2 → s2.pendingTransfers q = cSt.pendingTransfers q) ∧
      s2.identifierToAddress = cSt.identifierToAddress ∧
      s2.addressToIdentifier = cSt.addressToIdentifier ∧
      s2.productIdCounter = cSt.productIdCounter :=
  acceptTransfer_full_ownerSwap cSt 2 2 9 rfl (by decide) (by decide)
    (by decide) (by decide) (by decide)

/-- C4: when a pending transfer exists and its recipient calls
`acceptTransfer` but the product's current owner no longer equals the
pending transfer's recorded initiator (for instance after
`updateProductOwnerAddress` re-pointed the owner's address), the call
reverts with the stale-transfer reason and the whole contract state — in
particular the product's owner and quantity — is unchanged. -/
theorem acceptTransfer_staleTransfer (s : ContractState)
    (sender transferId newProductId : Nat)
    (hlock : s.locked = false)
    (hq : 0 < (s.pendingTransfers transferId).quantity)
    (hto : (s.pendingTransfers transferId).toAddr = sender)
    (hown : (s.products transferId).currentOwner ≠ 0)
    (hstale : (s.products transferId).currentOwner ≠
      (s.pendingTransfers transferId).fromAddr) :
    execCall s (Msg.accept sender transferId newProductId) =
      (s, some XferError.staleTransfer) := by
  have herr : acceptTransfer s sender transferId newProductId =
      .error XferError.staleTransfer := by
    rw [acceptTransfer]
    rw [hlock]
    rw [if_neg (by simp)]
    rw [if_neg (not_not_intro hq)]
    rw [if_neg (not_not_intro hto)]
    rw [if_neg hown]
    rw [if_pos hstale]
  simp [execCall, exec, herr]

/-- C4 witness: in `cSt`, product 3 is owned by address 9 while its pending
transfer records initiator 1; the recipient, address 2, cannot accept. -/
theorem acceptTransfer_staleTransfer_witness :
    execCall cSt (Msg.accept 2 3 8) = (cSt, some XferError.staleTransfer) :=
  acceptTransfer_staleTransfer cSt 2 3 8 rfl (by decide) (by decide)
    (by decide) (by decide)

/-- C3: while a product's pending-transfer slot holds a non-zero quantity,
any second `initiateTransfer` call on that product fails and leaves the
whole state — in particular the pending-transfer record and the product
record — unchanged; and when the second call passes every earlier check
(caller is the current owner and non-null, quantity positive and within the
product quantity, recipient registered and distinct from the caller), the
reported reason is precisely the already-pending error. -/
theorem initiateTransfer_alreadyPending (s : ContractState) (sender pid : Nat)
    (toIdent : String) (qty : Nat)
    (hpend : (s.pendingTransfers pid).quantity ≠ 0) :
    (execCall s (Msg.initiate sender pid toIdent qty)).1 = s ∧
    (execCall s (Msg.initiate sender pid toIdent qty)).2.isSome = true ∧
    (s.locked = false → (s.products pid).currentOwner = sender → sender ≠ 0 →
     0 < qty → qty ≤ (s.products pid).quantity →
     s.identifierToAddress toIdent ≠ 0 → s.identifierToAddress toIdent ≠ sender →
     execCall s (Msg.initiate sender pid toIdent qty) =
       (s, some XferError.transferAlreadyPending)) := by
  have hfail : ∃ e, initiateTransfer s sender pid toIdent qty = .error e := by
    simp only [initiateTransfer]
    split_ifs <;> exact ⟨_, rfl⟩
  obtain ⟨e, he⟩ := hfail
  refine ⟨by simp [execCall, exec, he], by simp [execCall, exec, he], ?_⟩
  intro hlock hownEq hsender hq hle hreg hnself
  have herr : initiateTransfer s sender pid toIdent qty =
      .error XferError.transferAlreadyPending := by
    rw [initiateTransfer]
    rw [hlock]
    rw [if_neg (by simp)]
    rw [if_neg (by simp [productExists, hownEq, hsender])]
    rw [if_neg (not_not_intro hownEq)]
    rw [if_neg (by omega)]
    rw [if_neg hreg]
    rw [if_neg hnself]
    rw [if_pos hpend]
  simp [execCall, exec, herr]

/-- C3 witness: in `cSt`, product 1 already has a pending transfer of 40
units, and its owner, address 1, tries to initiate another transfer of 10
units to the registered recipient "d". -/
theorem initiateTransfer_alreadyPending_witness :
    (execCall cSt (Msg.initiate 1 1 "d" 10)).1 = cSt ∧
    (execCall cSt (Msg.initiate 1 1 "d" 10)).2.isSome = true ∧
    (cSt.locked = false → (cSt.products 1).currentOwner = 1 → (1 : Nat) ≠ 0 →
     0 < 10 → 10 ≤ (cSt.products 1).quantity →
     cSt.identifierToAddress "d" ≠ 0 → cSt.identifierToAddress "d" ≠ 1 →
     execCall cSt (Msg.initiate 1 1 "d" 10) =
       (cSt, some XferError.transferAlreadyPending)) :=
  initiateTransfer_alreadyPending cSt 1 1 "d" 10 (by decide)

/-- C10: `cancelTransfer` authorizes by comparing registry-resolved
identifier strings, and an unregistered address resolves to the empty
identifier; hence a caller whose address is unregistered passes the check
against any pending transfer whose recorded initiator is also unregistered,
and clears it, although the caller is not the initiator. -/
theorem cancelTransfer_unregistered_bypass (s : ContractState)
    (sender pid : Nat)
    (hq : 0 < (s.pendingTransfers pid).quantity)
    (hfrom : s.addressToIdentifier (s.pendingTransfers pid).fromAddr = "")
    (hsender : s.addressToIdentifier sender = "")
    (hnotinit : sender ≠ (s.pendingTransfers pid).fromAddr) :
    cancelTransfer s sender pid =
      .ok { s with pendingTransfers := updFn s.pendingTransfers pid ⟨0, 0, 0⟩ } ∧
    (updFn s.pendingTransfers pid (⟨0, 0, 0⟩ : PendingTransfer) pid).quantity = 0 := by
  constructor
  · rw [cancelTransfer]
    rw [if_neg (not_not_intro (hsender.trans hfrom.symm))]
    rw [if_neg (not_not_intro hq)]
  · rw [updFn_eq]

/-- C10 witness: in `cSt` neither the initiator (address 1) of the pending
transfer on product 1 nor the caller (address 3) is registered, and the
caller cancels the transfer it did not initiate. -/
theorem cancelTransfer_unregistered_bypass_witness :
    cancelTransfer cSt 3 1 =
      .ok { cSt with pendingTransfers := updFn cSt.pendingTransfers 1 ⟨0, 0, 0⟩ } ∧
    (updFn cSt.pendingTransfers 1 (⟨0, 0, 0⟩ : PendingTransfer) 1).quantity = 0 :=
  cancelTransfer_unregistered_bypass cSt 3 1 (by decide) (by decide) (by decide)
    (by decide)

/-- C7 amended: `initiateTransfer` and `acceptTransfer` carry the
reentrancy guard — invoked while the guard flag is held they reject with
the reentrancy reason and change nothing.  (`cancelTransfer` carries no
guard; see the counterexample.) -/
theorem reentrancyGuard_initiate_accept (s : ContractState)
    (hlock : s.locked = true) (sender pid newId : Nat) (toIdent : String)
    (qty : Nat) :
    execCall s (Msg.initiate sender pid toIdent qty) =
      (s, some XferError.reentrant) ∧
    execCall s (Msg.accept sender pid newId) =
      (s, some XferError.reentrant) := by
  constructor
  · have herr : initiateTransfer s sender pid toIdent qty =
        .error XferError.reentrant := by
      rw [initiateTransfer, hlock]
      rw [if_pos rfl]
    simp [execCall, exec, herr]
  · have herr : acceptTransfer s sender pid newId =
        .error XferError.reentrant := by
      rw [acceptTransfer, hlock]
      rw [if_pos rfl]
    simp [execCall, exec, herr]

/-- C7 amended witness: with the guard flag raised in `lockedSt`, both
guarded entry points reject. -/
theorem reentrancyGuard_initiate_accept_witness :
    execCall lockedSt (Msg.initiate 1 1 "d" 10) =
      (lockedSt, some XferError.reentrant) ∧
    execCall lockedSt (Msg.accept 2 1 7) =
      (lockedSt, some XferError.reentrant) :=
  ⟨(reentrancyGuard_initiate_accept lockedSt rfl 1 1 7 "d" 10).1,
   (reentrancyGuard_initiate_accept lockedSt rfl 2 1 7 "d" 10).2⟩

/-- Only `registerUser` writes the identifier registry: every other call
leaves both registry maps untouched. -/
theorem exec_registry {s s2 : ContractState} {m : Msg}
    (hm : ∀ a i, m ≠ Msg.register a i) (h : exec s m = .ok s2) :
    s2.identifierToAddress = s.identifierToAddress ∧
    s2.addressToIdentifier = s.addressToIdentifier := by
  cases m with
  | register a i => exact absurd rfl (hm a i)
  | create a ts b t o d q pr =>
      simp only [exec, createProduct] at h
      split_ifs at h <;> cases h <;> exact ⟨rfl, rfl⟩
  | setStatus a p st =>
      simp only [exec, updateProductStatus] at h
      split_ifs at h <;> cases h <;> exact ⟨rfl, rfl⟩
  | initiate a p i q =>
      simp only [exec, initiateTransfer] at h
      split_ifs at h <;> cases h <;> exact ⟨rfl, rfl⟩
  | accept a t n =>
      simp only [exec, acceptTransfer] at h
      split_ifs at h <;> cases h <;> exact ⟨rfl, rfl⟩
  | cancel a p =>
      simp only [exec, cancelTransfer] at h
      split_ifs at h <;> cases h <;> exact ⟨rfl, rfl⟩
  | updateOwnerAddr a p =>
      simp only [exec, updateProductOwnerAddress] at h
      split_ifs at h <;> cases h <;> exact ⟨rfl, rfl⟩

/-- A `registerUser` call succeeds exactly by writing the two fresh
registry entries, and only under the two freshness conditions. -/
theorem registerUser_ok_conditions {s s2 : ContractState} {sender : Nat}
    {ident : String} (h : registerUser s sender ident = .ok s2) :
    s.identifierToAddress ident = 0 ∧ s.addressToIdentifier sender = "" ∧
    s2.identifierToAddress = updFn s.identifierToAddress ident sender ∧
    s2.addressToIdentifier = updFn s.addressToIdentifier sender ident := by
  rw [registerUser] at h
  split_ifs at h with h1 h2 <;> cases h
  rw [not_ne_iff] at h1 h2
  exact ⟨h1, h2, rfl, rfl⟩

/-- A successful registration from a non-null sender preserves the registry
invariant. -/
theorem registerUser_regInv {s s2 : ContractState} {sender : Nat}
    {ident : String} (hsender : sender ≠ 0) (hinv : RegInv s)
    (h : registerUser s sender ident = .ok s2) : RegInv s2 := by
  obtain ⟨inv0, inv1, inv2⟩ := hinv
  obtain ⟨h1, h2, e1, e2⟩ := registerUser_ok_conditions h
  refine ⟨?_, ?_, ?_⟩
  · rw [e2, updFn_ne _ _ _ _ (Ne.symm hsender)]
    exact inv0
  · intro id hid hne
    rw [e1] at hne ⊢
    rw [e2]
    by_cases hc : id = ident
    · subst hc
      simp only [updFn_eq]
    · rw [updFn_ne _ _ _ _ hc] at hne ⊢
      have hia := inv1 id hid hne
      have hns : s.identifierToAddress id ≠ sender := by
        intro he
        rw [he, h2] at hia
        exact hid hia.symm
      rw [updFn_ne _ _ _ _ hns]
      exact hia
  · intro a hne
    rw [e2] at hne ⊢
    rw [e1]
    by_cases hc : a = sender
    · subst hc
      simp only [updFn_eq]
    · rw [updFn_ne _ _ _ _ hc] at hne ⊢
      have hia := inv2 a hne
      have hni : s.addressToIdentifier a ≠ ident := by
        intro he
        rw [he, h1] at hia
        rw [← hia] at hne
        exact hne inv0
      rw [updFn_ne _ _ _ _ hni]
      exact hia

/-- The registry invariant holds in every reachable state. -/
theorem regInv_of_reachable {s : ContractState} (h : Reachable s) :
    RegInv s := by
  induction h with
  | init =>
      refine ⟨rfl, ?_, ?_⟩
      · intro id hid hne
        exact absurd rfl hne
      · intro a hne
        exact absurd rfl hne
  | step s s2 m hr hsender hexec ih =>
      cases m with
      | register a i => exact registerUser_regInv hsender ih hexec
      | create a ts b t o d q pr =>
          obtain ⟨e1, e2⟩ := exec_registry (by intro x y hx; cases hx) hexec
          unfold RegInv
          rw [e1, e2]
          exact ih
      | setStatus a p st =>
          obtain ⟨e1, e2⟩ := exec_registry (by intro x y hx; cases hx) hexec
          unfold RegInv
          rw [e1, e2]
          exact ih
      | initiate a p i q =>
          obtain ⟨e1, e2⟩ := exec_registry (by intro x y hx; cases hx) hexec
          unfold RegInv
          rw [e1, e2]
          exact ih
      | accept a t n =>
          obtain ⟨e1, e2⟩ := exec_registry (by intro x y hx; cases hx) hexec
          unfold RegInv
          rw [e1, e2]
          exact ih
      | cancel a p =>
          obtain ⟨e1, e2⟩ := exec_registry (by intro x y hx; cases hx) hexec
          unfold RegInv
          rw [e1, e2]
          exact ih
      | updateOwnerAddr a p =>
          obtain ⟨e1, e2⟩ := exec_registry (by intro x y hx; cases hx) hexec
          unfold RegInv
          rw [e1, e2]
          exact ih

/-- C8 amended: in every reachable state the two registry maps are mutually
inverse on registered pairs with a non-empty identifier — in particular the
identifier-to-address map is injective there — a `registerUser` call fails
with one of the two already-registered reasons whenever the identifier
already maps to a non-zero address or the caller's stored identifier is
non-empty, and an established pair with a non-empty identifier survives any
further successful call unchanged.  (The unrestricted claim fails for the
empty identifier, the contract's own "unregistered" sentinel: see the
counterexample.) -/
theorem registerUser_bijection (s : ContractState) (h : Reachable s) :
    (∀ id, id ≠ "" → s.identifierToAddress id ≠ 0 →
      s.addressToIdentifier (s.identifierToAddress id) = id) ∧
    (∀ a, s.addressToIdentifier a ≠ "" →
      s.identifierToAddress (s.addressToIdentifier a) = a) ∧
    (∀ id1 id2, id1 ≠ "" → id2 ≠ "" → s.identifierToAddress id1 ≠ 0 →
      s.identifierToAddress id1 = s.identifierToAddress id2 → id1 = id2) ∧
    (∀ sender ident,
      s.identifierToAddress ident ≠ 0 ∨ s.addressToIdentifier sender ≠ "" →
      ∃ e, registerUser s sender ident = .error e ∧
        (e = XferError.alreadyRegisteredIdentifier ∨
         e = XferError.alreadyRegisteredAddress)) ∧
    (∀ m s2 id a, exec s m = .ok s2 → id ≠ "" → a ≠ 0 →
      s.identifierToAddress id = a → s.addressToIdentifier a = id →
      s2.identifierToAddress id = a ∧ s2.addressToIdentifier a = id) := by
  obtain ⟨inv0, inv1, inv2⟩ := regInv_of_reachable h
  refine ⟨inv1, inv2, ?_, ?_, ?_⟩
  · intro id1 id2 h1 h2 hne heq
    have e1 := inv1 id1 h1 hne
    have e2 := inv1 id2 h2 (heq ▸ hne)
    rw [heq] at e1
    rw [e1] at e2
    exact e2
  · intro sender ident hcase
    rw [registerUser]
    by_cases hi : s.identifierToAddress ident ≠ 0
    · rw [if_pos hi]
      exact ⟨_, rfl, Or.inl rfl⟩
    · rw [if_neg hi]
      have ha : s.addressToIdentifier sender ≠ "" := hcase.resolve_left hi
      rw [if_pos ha]
      exact ⟨_, rfl, Or.inr rfl⟩
  · intro m s2 id a hexec hid ha hia hai
    cases m with
    | register b j =>
        have hro : registerUser s b j = .ok s2 := by
          simpa [exec] using hexec
        obtain ⟨h1, h2, e1, e2⟩ := registerUser_ok_conditions hro
        have hj : id ≠ j := by
          intro he
          rw [← he] at h1
          rw [hia] at h1
          exact ha h1
        have hb : a ≠ b := by
          intro he
          rw [← he] at h2
          rw [hai] at h2
          exact hid h2
        rw [e1, e2, updFn_ne _ _ _ _ hj, updFn_ne _ _ _ _ hb]
        exact ⟨hia, hai⟩
    | create c ts bt t o d q pr =>
        obtain ⟨e1, e2⟩ := exec_registry (by intro x y hx; cases hx) hexec
        rw [e1, e2]
        exact ⟨hia, hai⟩
    | setStatus c p st =>
        obtain ⟨e1, e2⟩ := exec_registry (by intro x y hx; cases hx) hexec
        rw [e1, e2]
        exact ⟨hia, hai⟩
    | initiate c p i q =>
        obtain ⟨e1, e2⟩ := exec_registry (by intro x y hx; cases hx) hexec
        rw [e1, e2]
        exact ⟨hia, hai⟩
    | accept c t n =>
        obtain ⟨e1, e2⟩ := exec_registry (by intro x y hx; cases hx) hexec
        rw [e1, e2]
        exact ⟨hia, hai⟩
    | cancel c p =>
        obtain ⟨e1, e2⟩ := exec_registry (by intro x y hx; cases hx) hexec
        rw [e1, e2]
        exact ⟨hia, hai⟩
    | updateOwnerAddr c p =>
        obtain ⟨e1, e2⟩ := exec_registry (by intro x y hx; cases hx) hexec
        rw [e1, e2]
        exact ⟨hia, hai⟩

/-- C8 amended witness: the bijection, failure and immutability properties
instantiated at the reachable state in which address 1 registered the
identifier "alice". -/
theorem registerUser_bijection_witness :
    (∀ id, id ≠ "" → regStateA.identifierToAddress id ≠ 0 →
      regStateA.addressToIdentifier (regStateA.identifierToAddress id) = id) ∧
    (∀ a, regStateA.addressToIdentifier a ≠ "" →
      regStateA.identifierToAddress (regStateA.addressToIdentifier a) = a) ∧
    (∀ id1 id2, id1 ≠ "" → id2 ≠ "" →
      regStateA.identifierToAddress id1 ≠ 0 →
      regStateA.identifierToAddress id1 = regStateA.identifierToAddress id2 →
      id1 = id2) ∧
    (∀ sender ident,
      regStateA.identifierToAddress ident ≠ 0 ∨
        regStateA.addressToIdentifier sender ≠ "" →
      ∃ e, registerUser regStateA sender ident = .error e ∧
        (e = XferError.alreadyRegisteredIdentifier ∨
         e = XferError.alreadyRegisteredAddress)) ∧
    (∀ m s2 id a, exec regStateA m = .ok s2 → id ≠ "" → a ≠ 0 →
      regStateA.identifierToAddress id = a →
      regStateA.addressToIdentifier a = id →
      s2.identifierToAddress id = a ∧ s2.addressToIdentifier a = id) :=
  registerUser_bijection regStateA
    (Reachable.step initialState regStateA (Msg.register 1 "alice")
      Reachable.init (by decide) rfl)

/-- C8 counterexample: registering the empty identifier — the contract's
own "unregistered" sentinel — breaks the claim as stated.  Address 1 first
registers the identifier "" (establishing the pair ("", 1)); a second
`registerUser` call from the same address then does not fail with an
already-registered error but succeeds, after which both "" and "x" map to
address 1 (the identifier-to-address map is not injective, so the two maps
form no 1:1 bijection in this reachable state) and the established pair's
address side has been overwritten from "" to "x" (the pair was not
immutable). -/
theorem registerUser_bijection_cex :
    (execCall initialState (Msg.register 1 "")).2 = none ∧
    regState1.identifierToAddress "" = 1 ∧
    regState1.addressToIdentifier 1 = "" ∧
    (execCall regState1 (Msg.register 1 "x")).2 = none ∧
    Reachable regState2 ∧
    regState2.identifierToAddress "" = 1 ∧
    regState2.identifierToAddress "x" = 1 ∧
    regState2.addressToIdentifier 1 = "x" ∧
    ("" : String) ≠ "x" :=
  ⟨rfl, rfl, rfl, rfl,
   Reachable.step regState1 regState2 (Msg.register 1 "x")
     (Reachable.step initialState regState1 (Msg.register 1 "")
       Reachable.init (by decide) rfl)
     (by decide) rfl,
   rfl, rfl, rfl, by decide⟩

/-- C7 counterexample: `cancelTransfer` carries no reentrancy guard — with
the guard flag held (`lockedSt.locked = true`) a cancel call still succeeds
and clears the pending transfer, refuting the claim that all three transfer
operations are guarded against reentrant invocation. -/
theorem cancelTransfer_unguarded_cex :
    lockedSt.locked = true ∧
    execCall lockedSt (Msg.cancel 1 1) =
      ({ lockedSt with
          pendingTransfers := updFn lockedSt.pendingTransfers 1 ⟨0, 0, 0⟩ },
       none) ∧
    ((execCall lockedSt (Msg.cancel 1 1)).1.pendingTransfers 1).quantity = 0 ∧
    (lockedSt.pendingTransfers 1).quantity = 40 :=
  ⟨rfl, rfl, by decide, by decide⟩

/- Small facts about the mirror operations. -/

theorem setTransfer_products (s : MirrorState) (tid : Nat) (t : MTransfer) :
    (setTransfer s tid t).products = s.products := rfl

theorem setProduct_transfers (s : MirrorState) (pid : Nat) (p : MProduct) :
    (setProduct s pid p).transfers = s.transfers := rfl

theorem setTransfer_self (s : MirrorState) (tid : Nat) (t : MTransfer)
    (h : s.transfers tid = some t) : setTransfer s tid t = s := by
  unfold setTransfer
  rw [← h, updFn_self]

theorem transferPreSave_status (x : MTransfer) (b : Bool) (n : Nat) :
    (transferPreSave x b n).status = x.status := by
  unfold transferPreSave
  split_ifs <;> rfl

theorem transferPreSave_toUser (x : MTransfer) (b : Bool) (n : Nat) :
    (transferPreSave x b n).toUser = x.toUser := by
  unfold transferPreSave
  split_ifs <;> rfl

theorem transferPreSave_product (x : MTransfer) (b : Bool) (n : Nat) :
    (transferPreSave x b n).product = x.product := by
  unfold transferPreSave
  split_ifs <;> rfl

theorem transferPreSave_quantity (x : MTransfer) (b : Bool) (n : Nat) :
    (transferPreSave x b n).quantity = x.quantity := by
  unfold transferPreSave
  split_ifs <;> rfl

theorem transferPreSave_noMod (x : MTransfer) (n : Nat) :
    transferPreSave x false n = x := by
  unfold transferPreSave
  simp

theorem mtransfer_status_eta (x : MTransfer) (h : x.status = TStatus.completed) :
    ({ x with status := TStatus.completed } : MTransfer) = x := by
  cases x
  simp_all

/-- The distributor accept route, on a found transfer addressed to the
caller and a ledger that already reports the transfer completed, performs
exactly the already-completed mirror update, answers 200, and issues no
ledger submission. -/
theorem distributorAccept_completed_eq (s : MirrorState) (u tid : Nat)
    (receipt : Option Receipt) (sub : SubmitResult) (now : Nat)
    (t : MTransfer) (ht : s.transfers tid = some t) (hto : t.toUser = u)
    (hc : checkTransferStatus receipt = LedgerTStatus.completed) :
    distributorAcceptRoute s u tid receipt sub now =
      (completedMirror s u tid t now,
       .ok "Transfer is already completed on the blockchain. Database updated.",
       false) := by
  simp only [distributorAcceptRoute, ht, hc]
  rw [if_neg (not_not_intro hto)]
  simp

/-- The already-completed mirror update stores the completed Transfer. -/
theorem completedMirror_transfers (s : MirrorState) (u tid : Nat)
    (t : MTransfer) (now : Nat) :
    (completedMirror s u tid t now).transfers tid =
      some (transferPreSave { t with status := TStatus.completed }
        (t.status != TStatus.completed) now) := by
  unfold completedMirror
  cases hp : s.products t.product with
  | none => simp [hp, setTransfer, updFn_eq]
  | some p =>
    simp only [setTransfer_products, hp]
    split_ifs with h
    · simp [setProduct, setTransfer, updFn_eq]
    · simp [setTransfer, updFn_eq]

/-- The already-completed mirror update creates no Transaction document. -/
theorem completedMirror_transactions (s : MirrorState) (u tid : Nat)
    (t : MTransfer) (now : Nat) :
    (completedMirror s u tid t now).transactions = s.transactions := by
  unfold completedMirror
  cases hp : s.products t.product with
  | none => simp [hp, setTransfer]
  | some p =>
    simp only [setTransfer_products, hp]
    split_ifs with h
    · simp [setProduct, setTransfer]
    · simp [setTransfer]

/-- After the already-completed mirror update, any product stored under the
transfer's product id is owned by the acceptor. -/
theorem completedMirror_owner (s : MirrorState) (u tid : Nat) (t : MTransfer)
    (now : Nat) (p : MProduct)
    (h : (completedMirror s u tid t now).products t.product = some p) :
    p.currentOwner = u := by
  simp only [completedMirror, setTransfer_products] at h
  cases hp : s.products t.product with
  | none =>
    rw [hp] at h
    dsimp only at h
    simp only [setTransfer_products] at h
    rw [hp] at h
    cases h
  | some p0 =>
    rw [hp] at h
    dsimp only at h
    split_ifs at h with how
    · simp only [setProduct, updFn_eq] at h
      cases h
      rfl
    · simp only [setTransfer_products] at h
      rw [hp] at h
      cases h
      rw [not_not] at how
      exact how

/-- The already-completed mirror update is the identity on a state that
already records the transfer as completed with the product (if present)
owned by the acceptor. -/
theorem completedMirror_noop (S : MirrorState) (u tid : Nat) (t2 : MTransfer)
    (now2 : Nat)
    (h1 : S.transfers tid = some t2)
    (h2 : t2.status = TStatus.completed)
    (h3 : ∀ p, S.products t2.product = some p → p.currentOwner = u) :
    completedMirror S u tid t2 now2 = S := by
  have hsave : transferPreSave { t2 with status := TStatus.completed }
      (t2.status != TStatus.completed) now2 = t2 := by
    rw [h2]
    simp only [bne_self_eq_false]
    rw [transferPreSave_noMod]
    exact mtransfer_status_eta t2 h2
  simp only [completedMirror, hsave, setTransfer_self _ _ _ h1]
  cases hp : S.products t2.product with
  | none => rfl
  | some p =>
    dsimp only
    rw [if_neg (not_not_intro (h3 p hp))]

/-- C5: when the ledger already reports the transfer completed, the
distributor accept path performs only the mirror update (no transaction
document, no ledger submission) and returns success; running the accept
path a second time on the result — with the ledger still reporting
completed — returns the same success, issues no ledger submission, and
leaves the mirror state exactly as after the first run. -/
theorem distributorAccept_idempotent (s : MirrorState) (u tid : Nat)
    (receipt : Option Receipt) (sub sub2 : SubmitResult) (now now2 : Nat)
    (t : MTransfer) (ht : s.transfers tid = some t) (hto : t.toUser = u)
    (hc : checkTransferStatus receipt = LedgerTStatus.completed) :
    (distributorAcceptRoute s u tid receipt sub now).2.2 = false ∧
    (distributorAcceptRoute s u tid receipt sub now).2.1 =
      .ok "Transfer is already completed on the blockchain. Database updated." ∧
    (∃ t2, (distributorAcceptRoute s u tid receipt sub now).1.transfers tid =
      some t2 ∧ t2.status = TStatus.completed) ∧
    (distributorAcceptRoute s u tid receipt sub now).1.transactions =
      s.transactions ∧
    distributorAcceptRoute (distributorAcceptRoute s u tid receipt sub now).1
        u tid receipt sub2 now2 =
      ((distributorAcceptRoute s u tid receipt sub now).1,
       .ok "Transfer is already completed on the blockchain. Database updated.",
       false) := by
  have h1 := distributorAccept_completed_eq s u tid receipt sub now t ht hto hc
  rw [h1]
  have htrans := completedMirror_transfers s u tid t now
  refine ⟨rfl, rfl, ⟨_, htrans, by rw [transferPreSave_status]⟩,
    completedMirror_transactions s u tid t now, ?_⟩
  have hto2 : (transferPreSave { t with status := TStatus.completed }
      (t.status != TStatus.completed) now).toUser = u := by
    rw [transferPreSave_toUser]
    exact hto
  have h2 := distributorAccept_completed_eq (completedMirror s u tid t now)
    u tid receipt sub2 now2 _ htrans hto2 hc
  rw [h2]
  have hnoop := completedMirror_noop (completedMirror s u tid t now) u tid
    (transferPreSave { t with status := TStatus.completed }
      (t.status != TStatus.completed) now) now2 htrans
    (by rw [transferPreSave_status])
    (by
      intro p hp
      rw [transferPreSave_product] at hp
      exact completedMirror_owner s u tid t now p hp)
  rw [hnoop]

/-- C5 witness: user 3 accepts transfer 1 in `mSt` while the ledger receipt
already carries a TransferAccepted event; run twice with distinct clocks
and submission stubs. -/
theorem distributorAccept_idempotent_witness :
    (distributorAcceptRoute mSt 3 1 okReceipt ⟨false, ""⟩ 10).2.2 = false ∧
    (distributorAcceptRoute mSt 3 1 okReceipt ⟨false, ""⟩ 10).2.1 =
      .ok "Transfer is already completed on the blockchain. Database updated." ∧
    (∃ t2, (distributorAcceptRoute mSt 3 1 okReceipt ⟨false, ""⟩ 10).1.transfers 1 =
      some t2 ∧ t2.status = TStatus.completed) ∧
    (distributorAcceptRoute mSt 3 1 okReceipt ⟨false, ""⟩ 10).1.transactions =
      mSt.transactions ∧
    distributorAcceptRoute
        (distributorAcceptRoute mSt 3 1 okReceipt ⟨false, ""⟩ 10).1
        3 1 okReceipt ⟨true, "0xz"⟩ 20 =
      ((distributorAcceptRoute mSt 3 1 okReceipt ⟨false, ""⟩ 10).1,
       .ok "Transfer is already completed on the blockchain. Database updated.",
       false) :=
  distributorAccept_idempotent mSt 3 1 okReceipt ⟨false, ""⟩ ⟨true, "0xz"⟩ 10 20
    ⟨5, 2, 3, 40, TStatus.pending, "0xa", none, none⟩ rfl rfl (by decide)

/-- C9 amended: when the ledger still reports the transfer pending and the
acceptance submission confirms with success, the distributor accept route
marks the mirror Transfer completed, re-points the mirror Product's owner
to the acceptor and sets its quantity to the transfer quantity, and records
a Transaction — but appends nothing to the product's ownership history;
the Product model's `completeTransfer` method, which the route does not
invoke, is the one that would append the previous owner with a
timestamp. -/
theorem distributorAccept_success_updates (s : MirrorState) (u tid : Nat)
    (receipt : Option Receipt) (sub : SubmitResult) (now : Nat)
    (t : MTransfer) (p q : MProduct) (pt : Nat × Int × Nat) (n : Nat)
    (ht : s.transfers tid = some t) (hto : t.toUser = u)
    (hpend : checkTransferStatus receipt = LedgerTStatus.pending)
    (hsub : sub.success = true)
    (hp : s.products t.product = some p)
    (hqpt : q.pendingTransfer = some pt) :
    (distributorAcceptRoute s u tid receipt sub now).2.2 = true ∧
    (distributorAcceptRoute s u tid receipt sub now).2.1 =
      .ok "Transfer accepted successfully" ∧
    (∃ t2, (distributorAcceptRoute s u tid receipt sub now).1.transfers tid =
      some t2 ∧ t2.status = TStatus.completed) ∧
    (∃ p2, (distributorAcceptRoute s u tid receipt sub now).1.products
        t.product = some p2 ∧
      p2.currentOwner = u ∧ p2.quantity = t.quantity ∧
      p2.ownershipHistory = p.ownershipHistory) ∧
    (distributorAcceptRoute s u tid receipt sub now).1.transactions =
      s.transactions ++ [⟨t.product, t.fromUser, u, t.quantity,
        "Received from Farmer", "Completed", sub.txHash⟩] ∧
    (∃ q2, completeTransfer q n = .ok q2 ∧
      q2.ownershipHistory = q.ownershipHistory ++ [⟨q.currentOwner, n⟩] ∧
      q2.currentOwner = pt.1) := by
  simp only [distributorAcceptRoute, ht, hpend]
  rw [if_neg (not_not_intro hto)]
  rw [if_neg (by decide : ¬ (LedgerTStatus.pending = LedgerTStatus.completed))]
  rw [if_neg (by decide : ¬ (LedgerTStatus.pending = LedgerTStatus.failed))]
  rw [if_neg (not_not_intro rfl)]
  rw [hsub]
  rw [if_neg (by decide : ¬ (true = false))]
  simp only [setTransfer_products]
  rw [hp]
  dsimp only
  refine ⟨rfl, rfl,
    ⟨transferPreSave { t with status := TStatus.completed }
      (t.status != TStatus.completed) now, ?_, ?_⟩, ?_, rfl, ?_⟩
  · simp [setProduct, setTransfer, updFn_eq]
  · rw [transferPreSave_status]
  · refine ⟨{ p with currentOwner := u, quantity := t.quantity }, ?_, rfl, rfl, rfl⟩
    simp [setProduct, updFn_eq]
  · rw [completeTransfer, hqpt]
    exact ⟨_, rfl, rfl, rfl⟩

/-- C9 witness: user 3 accepts transfer 1 in `mSt`; the ledger reports the
transfer pending (no receipt yet) and the submission succeeds with hash
"0xd" at time 50; separately, `completeTransfer` on a product carrying a
pending transfer appends the history entry. -/
theorem distributorAccept_success_updates_witness :
    (distributorAcceptRoute mSt 3 1 none ⟨true, "0xd"⟩ 50).2.2 = true ∧
    (distributorAcceptRoute mSt 3 1 none ⟨true, "0xd"⟩ 50).2.1 =
      .ok "Transfer accepted successfully" ∧
    (∃ t2, (distributorAcceptRoute mSt 3 1 none ⟨true, "0xd"⟩ 50).1.transfers 1 =
      some t2 ∧ t2.status = TStatus.completed) ∧
    (∃ p2, (distributorAcceptRoute mSt 3 1 none ⟨true, "0xd"⟩ 50).1.products 5 =
      some p2 ∧ p2.currentOwner = 3 ∧ p2.quantity = 40 ∧
      p2.ownershipHistory = ([] : List OwnEntry)) ∧
    (distributorAcceptRoute mSt 3 1 none ⟨true, "0xd"⟩ 50).1.transactions =
      mSt.transactions ++ [⟨5, 2, 3, 40, "Received from Farmer", "Completed", "0xd"⟩] ∧
    (∃ q2, completeTransfer ⟨2, 100, none, some (7, 30, 9), [], []⟩ 99 = .ok q2 ∧
      q2.ownershipHistory = ([] : List OwnEntry) ++ [⟨2, 99⟩] ∧
      q2.currentOwner = 7) :=
  distributorAccept_success_updates mSt 3 1 none ⟨true, "0xd"⟩ 50
    ⟨5, 2, 3, 40, TStatus.pending, "0xa", none, none⟩
    ⟨2, 100, none, none, [], []⟩
    ⟨2, 100, none, some (7, 30, 9), [], []⟩ (7, 30, 9) 99
    rfl rfl rfl rfl rfl rfl

/-- C9 counterexample: on `mSt`, a ledger-confirmed acceptance (pending on
ledger, submission succeeds) moves product 5 from owner 2 to owner 3 and
reports success, yet the resulting ownership history is still empty — no
entry recording the previous owner was appended, contrary to the claim. -/
theorem distributorAccept_no_history_cex :
    mSt.products 5 = some ⟨2, 100, none, none, [], []⟩ ∧
    (distributorAcceptRoute mSt 3 1 none ⟨true, "0xd"⟩ 50).2.1 =
      .ok "Transfer accepted successfully" ∧
    mStAfter.products 5 = some ⟨3, 40, none, none, [], []⟩ ∧
    mStAfter.transfers 1 =
      some ⟨5, 2, 3, 40, TStatus.completed, "0xa", none, some 50⟩ :=
  ⟨rfl, rfl, rfl, rfl⟩

/-- C6: initiating a farmer transfer of quantity Q decrements the mirror
product's available quantity by Q, and cancelling that transfer adds Q
back, so the round trip restores the pre-initiation quantity (and owner). -/
theorem farmerInitiate_cancel_roundtrip (s : MirrorState) (u pid : Nat)
    (uname : String) (qty : Int) (tx : String) (freshTid now : Nat)
    (p : MProduct) (v : Nat)
    (hp : s.products pid = some p) (hown : p.currentOwner = u)
    (hq1 : 1 ≤ qty) (hqa : qty ≤ p.quantity) (htx : tx ≠ "")
    (hu : s.users uname = some v)
    (hfresh : s.transfers freshTid = none) :
    (∃ p1, (farmerInitiateRoute s u pid uname qty tx freshTid).1.products pid =
      some p1 ∧ p1.quantity = p.quantity - qty) ∧
    (farmerInitiateRoute s u pid uname qty tx freshTid).2 =
      .ok "Transfer initiated successfully" ∧
    (farmerCancelRoute (farmerInitiateRoute s u pid uname qty tx freshTid).1
      u freshTid now).2 = .ok "Transfer cancelled successfully" ∧
    (∃ p2, (farmerCancelRoute
        (farmerInitiateRoute s u pid uname qty tx freshTid).1
        u freshTid now).1.products pid = some p2 ∧
      p2.quantity = p.quantity ∧ p2.currentOwner = p.currentOwner ∧
      p2.ownershipHistory = p.ownershipHistory) := by
  have hval : ¬ (qty < 1 ∨ tx = "") := by
    rintro (h | h)
    · omega
    · exact htx h
  have hinit : farmerInitiateRoute s u pid uname qty tx freshTid =
      (setTransfer (setProduct s pid { p with quantity := p.quantity - qty })
        freshTid
        ⟨pid, u, v, qty, TStatus.pending, tx, none, none⟩,
       .ok "Transfer initiated successfully") := by
    simp only [farmerInitiateRoute, hp, hu]
    rw [if_neg hval]
    rw [if_neg (not_not_intro hown)]
    rw [if_neg (not_lt.mpr hqa)]
  rw [hinit]
  dsimp only
  have hcancel : farmerCancelRoute
      (setTransfer (setProduct s pid { p with quantity := p.quantity - qty })
        freshTid ⟨pid, u, v, qty, TStatus.pending, tx, none, none⟩)
      u freshTid now =
      (setProduct
        (setTransfer
          (setTransfer (setProduct s pid { p with quantity := p.quantity - qty })
            freshTid ⟨pid, u, v, qty, TStatus.pending, tx, none, none⟩)
          freshTid ⟨pid, u, v, qty, TStatus.cancelled, tx, none, none⟩)
        pid { p with quantity := p.quantity - qty + qty },
       .ok "Transfer cancelled successfully") := by
    simp only [farmerCancelRoute, setTransfer, setProduct, updFn_eq]
    simp +decide [transferPreSave, updFn_eq]
  refine ⟨⟨{ p with quantity := p.quantity - qty }, ?_, rfl⟩, rfl, ?_, ?_⟩
  · simp [setTransfer, setProduct, updFn_eq]
  · rw [hcancel]
  · rw [hcancel]
    refine ⟨{ p with quantity := p.quantity - qty + qty }, ?_, ?_, rfl, rfl⟩
    · simp [setProduct, updFn_eq]
    · dsimp only
      omega

/-- C6 witness: in `mSt`, user 2 initiates a transfer of 40 of the 100
units of product 5 to user "dist" (fresh transfer id 2) and then cancels
it; the product quantity returns to 100. -/
theorem farmerInitiate_cancel_roundtrip_witness :
    (∃ p1, (farmerInitiateRoute mSt 2 5 "dist" 40 "0xb" 2).1.products 5 =
      some p1 ∧ p1.quantity = (100 : Int) - 40) ∧
    (farmerInitiateRoute mSt 2 5 "dist" 40 "0xb" 2).2 =
      .ok "Transfer initiated successfully" ∧
    (farmerCancelRoute (farmerInitiateRoute mSt 2 5 "dist" 40 "0xb" 2).1
      2 2 7).2 = .ok "Transfer cancelled successfully" ∧
    (∃ p2, (farmerCancelRoute
        (farmerInitiateRoute mSt 2 5 "dist" 40 "0xb" 2).1
        2 2 7).1.products 5 = some p2 ∧
      p2.quantity = (100 : Int) ∧ p2.currentOwner = 2 ∧
      p2.ownershipHistory = ([] : List OwnEntry)) :=
  farmerInitiate_cancel_roundtrip mSt 2 5 "dist" 40 "0xb" 2 7
    ⟨2, 100, none, none, [], []⟩ 3 rfl rfl (by decide) (by decide) (by decide)
    rfl rfl

end Farmily
